import Mathlib

/-!
Verification of the AutoFlow Enterprise server (`src/server.js`): a shallow
embedding of its in-memory data model and route handlers, followed by
theorems about the behaviour of each endpoint.

Library code (bcrypt, jsonwebtoken, uuid) is modelled by its contract:
bcrypt as a deterministic hash with `compare p h = (hash p == h)`, JWT as a
pair of payload and signing secret with verification checking the secret,
and uuidv4 as a fresh-id counter threaded through the server state.
Timestamps (`new Date().toISOString()`) are modelled as a `now : Nat`
parameter, and `setTimeout` callbacks as explicit timer events.
-/

namespace AutoFlow

/-- A registered user (`users` array element, server.js:179-186 and 464-471). -/
structure User where
  id : Nat
  email : String
  name : String
  password : String
  role : String
  createdAt : Nat
  deriving Repr, DecidableEq

/-- A workflow (`workflows` array element, server.js:266-276 and 327-338).
Fields taken from a request body may be absent, hence `Option`. -/
structure Workflow where
  id : Nat
  userId : Nat
  name : Option String
  description : Option String
  trigger : Option String
  actions : List String
  status : String
  templateId : Option String
  createdAt : Nat
  updatedAt : Nat
  deriving Repr, DecidableEq

/-- An execution record (`executions` array element, server.js:366-373). -/
structure Execution where
  id : Nat
  userId : Nat
  workflowId : Nat
  status : String
  startedAt : Nat
  completedAt : Option Nat
  logs : List String
  deriving Repr, DecidableEq

/-- An integration (`integrations` array element, server.js:40-76 and
295-303).  The five built-in entries have string ids and a description but
no `userId` or `config`; user-created ones have a `userId` and `config`. -/
structure Integration where
  id : String
  userId : Option Nat
  name : Option String
  type : Option String
  config : Option String
  status : String
  description : Option String
  createdAt : Option Nat
  deriving Repr, DecidableEq

/-- A workflow template (`templates` array element, server.js:78-97). -/
structure Template where
  id : String
  name : String
  description : String
  category : String
  triggers : List String
  actions : List String
  price : Nat
  deriving Repr, DecidableEq

/-- The JWT payload signed at registration and login
(server.js:191-195, 234-238). -/
structure Payload where
  userId : Nat
  email : String
  role : String
  deriving Repr, DecidableEq

/-- A signed JWT, modelled as its payload together with the secret it was
signed with.  `expiresIn` is not modelled (no claim depends on expiry). -/
structure Token where
  payload : Payload
  secret : String
  deriving Repr, DecidableEq

/-- server.js:100 — the JWT secret (default value). -/
def JWT_SECRET : String := "autoflow-secret-key-change-in-production"

/-- Model of `jwt.sign(payload, secret)`. -/
def jwtSign (p : Payload) (secret : String) : Token := ⟨p, secret⟩

/-- Model of `jwt.verify(token, secret, cb)`: the callback receives the
payload when the token was signed with `secret`, an error otherwise. -/
def jwtVerify (t : Token) (secret : String) : Option Payload :=
  if t.secret = secret then some t.payload else none

/-- Model of `bcrypt.hash(password, 12)` as a deterministic injective hash. -/
def bcryptHash (password : String) : String := "bcrypt$" ++ password

/-- Model of `bcrypt.compare(password, hash)`: true exactly when `hash` is
the hash of `password`. -/
def bcryptCompare (password hash : String) : Bool := bcryptHash password == hash

/-- JavaScript truthiness of an optional string field of a request body:
`undefined` and the empty string are falsy. -/
def truthy (s : Option String) : Bool :=
  match s with
  | none => false
  | some v => v != ""

/-- The five built-in integrations (server.js:40-76). -/
def defaultIntegrations : List Integration :=
  [ { id := "github-1", userId := none, name := some "GitHub", type := some "github",
      config := none, status := "active",
      description := some "GitHub repository management and automation", createdAt := none },
    { id := "slack-1", userId := none, name := some "Slack", type := some "slack",
      config := none, status := "active",
      description := some "Slack messaging and notifications", createdAt := none },
    { id := "openai-1", userId := none, name := some "OpenAI", type := some "openai",
      config := none, status := "active",
      description := some "AI-powered content generation and analysis", createdAt := none },
    { id := "aws-1", userId := none, name := some "AWS", type := some "aws",
      config := none, status := "active",
      description := some "Amazon Web Services integration", createdAt := none },
    { id := "stripe-1", userId := none, name := some "Stripe", type := some "stripe",
      config := none, status := "active",
      description := some "Payment processing and subscription management", createdAt := none } ]

/-- The two built-in templates (server.js:78-97). -/
def defaultTemplates : List Template :=
  [ { id := "email-automation-1", name := "Email Marketing Automation",
      description := "Automated email sequences for lead nurturing",
      category := "Marketing", triggers := ["webhook", "schedule"],
      actions := ["email", "crm_update"], price := 99 },
    { id := "social-media-1", name := "Social Media Cross-posting",
      description := "Post content across multiple social platforms",
      category := "Social Media", triggers := ["manual", "schedule"],
      actions := ["twitter_post", "linkedin_post", "facebook_post"], price := 149 } ]

/-- The server's mutable state: the four in-memory arrays (server.js:37-40),
the templates array, the set of armed `setTimeout` timers (by execution id),
and the uuid counter. -/
structure ServerState where
  users : List User
  workflows : List Workflow
  executions : List Execution
  integrations : List Integration
  templates : List Template
  timers : List Nat
  nextId : Nat
  deriving Repr, DecidableEq

/-- The state right after module evaluation, before the `app.listen`
callback runs (server.js:37-97). -/
def emptyState : ServerState :=
  { users := [], workflows := [], executions := [],
    integrations := defaultIntegrations, templates := defaultTemplates,
    timers := [], nextId := 0 }

/-- server.js:460-474 — the `app.listen` startup callback: if no users
exist, push a default admin user `admin@autoflow.com`. -/
def startup (s : ServerState) : ServerState :=
  if s.users.length = 0 then
    { s with
      users := s.users ++
        [ { id := s.nextId, email := "admin@autoflow.com", name := "AutoFlow Admin",
            password := bcryptHash "admin123", role := "admin", createdAt := 0 } ],
      nextId := s.nextId + 1 }
  else s

/-- The server's initial state once startup has completed: the default
admin user has been seeded. -/
def initState : ServerState := startup emptyState

/-- Body of `POST /api/auth/register` (server.js:163). -/
structure RegisterReq where
  email : Option String
  password : Option String
  name : Option String
  deriving Repr, DecidableEq

/-- Response of `POST /api/auth/register`. -/
inductive RegisterRes where
  | badRequest (error : String)
  | created (token : Token) (user : User)
  deriving Repr, DecidableEq

/-- HTTP status code of a register response. -/
def RegisterRes.status : RegisterRes → Nat
  | .badRequest _ => 400
  | .created _ _ => 201

/-- The role of the user in a `201 Created` register response, if any. -/
def RegisterRes.createdRole : RegisterRes → Option String
  | .badRequest _ => none
  | .created _ u => some u.role

/-- server.js:161-211 — `POST /api/auth/register`: validate the three body
fields, reject duplicate emails with 400, otherwise push a new user whose
role is `admin` exactly when the users array is empty, and return a signed
token. -/
def register (s : ServerState) (req : RegisterReq) (now : Nat) :
    RegisterRes × ServerState :=
  if !(truthy req.email && truthy req.password && truthy req.name) then
    (.badRequest "Email, password, and name are required", s)
  else
    let email := req.email.getD ""
    let password := req.password.getD ""
    let name := req.name.getD ""
    if s.users.any (fun u => u.email == email) then
      (.badRequest "User already exists", s)
    else
      let user : User :=
        { id := s.nextId, email := email, name := name,
          password := bcryptHash password,
          role := if s.users.length = 0 then "admin" else "user",
          createdAt := now }
      let token := jwtSign ⟨user.id, user.email, user.role⟩ JWT_SECRET
      (.created token user,
       { s with users := s.users ++ [user], nextId := s.nextId + 1 })

/-- Body of `POST /api/auth/login` (server.js:215). -/
structure LoginReq where
  email : Option String
  password : Option String
  deriving Repr, DecidableEq

/-- Response of `POST /api/auth/login`.  Login never modifies state. -/
inductive LoginRes where
  | badRequest (error : String)
  | unauthorized (error : String)
  | ok (token : Token) (user : User)
  deriving Repr, DecidableEq

/-- HTTP status code of a login response. -/
def LoginRes.status : LoginRes → Nat
  | .badRequest _ => 400
  | .unauthorized _ => 401
  | .ok _ _ => 200

/-- server.js:213-254 — `POST /api/auth/login`: validate the body, look the
user up by email, compare the password against the stored bcrypt hash, and
return a signed token on success; unknown email or wrong password yield a
401 `Invalid credentials`. -/
def login (s : ServerState) (req : LoginReq) : LoginRes :=
  if !(truthy req.email && truthy req.password) then
    .badRequest "Email and password are required"
  else
    let email := req.email.getD ""
    let password := req.password.getD ""
    match s.users.find? (fun u => u.email == email) with
    | none => .unauthorized "Invalid credentials"
    | some user =>
      if bcryptCompare password user.password then
        .ok (jwtSign ⟨user.id, user.email, user.role⟩ JWT_SECRET) user
      else
        .unauthorized "Invalid credentials"

/-- Outcome of the `authenticateToken` middleware. -/
inductive AuthResult where
  | unauthorized (error : String)
  | forbidden (error : String)
  | ok (user : Payload)
  deriving Repr, DecidableEq

/-- server.js:103-118 — the `authenticateToken` middleware, applied to the
bearer token extracted from the `Authorization` header (`none` when the
header is absent or has no token part): 401 without a token, 403 when
`jwt.verify` fails, otherwise `req.user` is set to the payload and the
handler runs. -/
def authenticateToken (token : Option Token) : AuthResult :=
  match token with
  | none => .unauthorized "Access token required"
  | some t =>
    match jwtVerify t JWT_SECRET with
    | none => .forbidden "Invalid token"
    | some p => .ok p

/-- Result of a protected route: either the middleware's error response
(with its HTTP status) or the handler's own result. -/
inductive RouteRes (α : Type) where
  | errRes (status : Nat) (error : String)
  | okRes (value : α)
  deriving Repr, DecidableEq

/-- A protected route: `app.METHOD(path, authenticateToken, handler)`.
The handler body runs only when the middleware calls `next()`. -/
def protectedRoute {α : Type} (handler : Payload → ServerState → α × ServerState)
    (token : Option Token) (s : ServerState) : RouteRes α × ServerState :=
  match authenticateToken token with
  | .unauthorized e => (.errRes 401 e, s)
  | .forbidden e => (.errRes 403 e, s)
  | .ok p =>
    let r := handler p s
    (.okRes r.1, r.2)

/-- server.js:257-260 — `GET /api/workflows`: the requesting user's
workflows, filtered by `userId`. -/
def getWorkflows (s : ServerState) (u : Payload) : List Workflow :=
  s.workflows.filter (fun w => w.userId == u.userId)

/-- Body of `POST /api/workflows` (server.js:264). -/
structure WorkflowReq where
  name : Option String
  description : Option String
  trigger : Option String
  actions : Option (List String)
  deriving Repr, DecidableEq

/-- server.js:262-284 — `POST /api/workflows`: no validation; build a
workflow from the body verbatim (`actions || []` defaults to the empty
list), push it, and respond 201 with the workflow. -/
def createWorkflow (s : ServerState) (u : Payload) (req : WorkflowReq)
    (now : Nat) : (Nat × Workflow) × ServerState :=
  let workflow : Workflow :=
    { id := s.nextId, userId := u.userId, name := req.name,
      description := req.description, trigger := req.trigger,
      actions := req.actions.getD [], status := "active", templateId := none,
      createdAt := now, updatedAt := now }
  ((201, workflow),
   { s with workflows := s.workflows ++ [workflow], nextId := s.nextId + 1 })

/-- server.js:287-289 — `GET /api/integrations`: the whole integrations
array, with no per-user filtering. -/
def getIntegrations (s : ServerState) (_u : Payload) : List Integration :=
  s.integrations

/-- Body of `POST /api/integrations` (server.js:293). -/
structure IntegrationReq where
  name : Option String
  type : Option String
  config : Option String
  deriving Repr, DecidableEq

/-- server.js:291-311 — `POST /api/integrations`: no validation; build an
integration from the body, push it, respond 201. -/
def createIntegration (s : ServerState) (u : Payload) (req : IntegrationReq)
    (now : Nat) : (Nat × Integration) × ServerState :=
  let integration : Integration :=
    { id := "uuid-" ++ toString s.nextId, userId := some u.userId,
      name := req.name, type := req.type, config := req.config,
      status := "active", description := none, createdAt := some now }
  ((201, integration),
   { s with integrations := s.integrations ++ [integration],
            nextId := s.nextId + 1 })

/-- Response of `POST /api/templates/:templateId/deploy`. -/
inductive DeployRes where
  | notFound (error : String)
  | created (workflow : Workflow)
  deriving Repr, DecidableEq

/-- HTTP status code of a deploy response. -/
def DeployRes.status : DeployRes → Nat
  | .notFound _ => 404
  | .created _ => 201

/-- The workflow built from a template by the deploy handler
(server.js:327-338): `template.triggers[0]` is its first trigger
(`undefined`, i.e. `none`, when the list is empty). -/
def deployedWorkflow (s : ServerState) (u : Payload) (t : Template)
    (now : Nat) : Workflow :=
  { id := s.nextId, userId := u.userId, name := some t.name,
    description := some t.description, trigger := t.triggers.head?,
    actions := t.actions, status := "active", templateId := some t.id,
    createdAt := now, updatedAt := now }

/-- server.js:318-349 — `POST /api/templates/:templateId/deploy`: look the
template up by id (404 when absent), then push `deployedWorkflow`. -/
def deployTemplate (s : ServerState) (u : Payload) (templateId : String)
    (now : Nat) : DeployRes × ServerState :=
  match s.templates.find? (fun t => t.id == templateId) with
  | none => (.notFound "Template not found", s)
  | some t =>
    let workflow := deployedWorkflow s u t now
    (.created workflow,
     { s with workflows := s.workflows ++ [workflow], nextId := s.nextId + 1 })

/-- server.js:352-355 — `GET /api/executions`: the requesting user's
executions, filtered by `userId`. -/
def getExecutions (s : ServerState) (u : Payload) : List Execution :=
  s.executions.filter (fun e => e.userId == u.userId)

/-- Response of `POST /api/executions/:workflowId`. -/
inductive ExecRes where
  | notFound (error : String)
  | created (execution : Execution)
  deriving Repr, DecidableEq

/-- HTTP status code of an execution-start response. -/
def ExecRes.status : ExecRes → Nat
  | .notFound _ => 404
  | .created _ => 201

/-- server.js:357-390 — `POST /api/executions/:workflowId`: look up a
workflow with that id owned by the requester (404 when absent), push an
execution with status `running`, arm the completion timer
(`setTimeout`, server.js:378-383), and respond 201 with the execution. -/
def createExecution (s : ServerState) (u : Payload) (workflowId : Nat)
    (now : Nat) : ExecRes × ServerState :=
  match s.workflows.find? (fun w => w.id == workflowId && w.userId == u.userId) with
  | none => (.notFound "Workflow not found", s)
  | some workflow =>
    let execution : Execution :=
      { id := s.nextId, userId := u.userId, workflowId := workflowId,
        status := "running", startedAt := now, completedAt := none,
        logs := ["Execution started for workflow: " ++ workflow.name.getD "undefined"] }
    (.created execution,
     { s with executions := s.executions ++ [execution],
              timers := s.timers ++ [execution.id],
              nextId := s.nextId + 1 })

/-- The body of the `setTimeout` callback (server.js:379-382) applied to
one execution record: set status to `completed`, record `completedAt`, and
append the two completion log lines (`itemCount` models the random count). -/
def completeExecution (e : Execution) (now itemCount : Nat) : Execution :=
  { e with
    status := "completed"
    completedAt := some now
    logs := e.logs ++
      ["Execution completed successfully",
       "Processed " ++ toString itemCount ++ " items"] }

/-- Firing the armed timer for execution `execId` (server.js:378-383): the
captured execution object is mutated in place, so the record with that id
in the executions array is updated, and the timer is disarmed. -/
def fireTimer (s : ServerState) (execId : Nat) (now itemCount : Nat) :
    ServerState :=
  { s with
    executions := s.executions.map
      (fun e => if e.id = execId then completeExecution e now itemCount else e),
    timers := s.timers.erase execId }

/-- One step of the server: any request handler that can change state, or
an armed timer firing.  (`GET` handlers and failed authentications leave
the state unchanged, as `protectedRoute` shows, so they need no step.) -/
inductive Step : ServerState → ServerState → Prop where
  | doRegister (s : ServerState) (req : RegisterReq) (now : Nat) :
      Step s (register s req now).2
  | doCreateWorkflow (s : ServerState) (u : Payload) (req : WorkflowReq) (now : Nat) :
      Step s (createWorkflow s u req now).2
  | doCreateIntegration (s : ServerState) (u : Payload) (req : IntegrationReq) (now : Nat) :
      Step s (createIntegration s u req now).2
  | doDeployTemplate (s : ServerState) (u : Payload) (templateId : String) (now : Nat) :
      Step s (deployTemplate s u templateId now).2
  | doCreateExecution (s : ServerState) (u : Payload) (workflowId : Nat) (now : Nat) :
      Step s (createExecution s u workflowId now).2
  | doFireTimer (s : ServerState) (execId : Nat) (now itemCount : Nat) :
      execId ∈ s.timers → Step s (fireTimer s execId now itemCount)

/-- States the running server can reach from its post-startup state. -/
def Reachable (s : ServerState) : Prop :=
  Relation.ReflTransGen Step initState s

/-! Concrete values used to exercise the handlers on explicit inputs. -/

/-- The payload the default admin's token carries. -/
def u0 : Payload := { userId := 0, email := "admin@autoflow.com", role := "admin" }

/-- A second user's payload, distinct from the admin's. -/
def u9 : Payload := { userId := 9, email := "b@b.c", role := "user" }

/-- A concrete workflow-creation body. -/
def wreq0 : WorkflowReq :=
  { name := some "Demo", description := none, trigger := some "manual",
    actions := none }

/-- A concrete integration-creation body. -/
def ireq0 : IntegrationReq :=
  { name := some "My Hook", type := some "webhook", config := some "hook-config" }

/-- A concrete registration body. -/
def reqC1 : RegisterReq :=
  { email := some "a@b.c", password := some "pw", name := some "Alice" }

/-- The state after the admin creates one workflow (id 1). -/
def s1 : ServerState := (createWorkflow initState u0 wreq0 5).2

/-- The workflow created in `s1`. -/
def wf1 : Workflow := (createWorkflow initState u0 wreq0 5).1.2

/-- The state after the admin starts an execution of workflow 1 (id 2). -/
def s2 : ServerState := (createExecution s1 u0 1 6).2

/-- The execution record created in `s2`. -/
def exec0 : Execution :=
  { id := 2, userId := 0, workflowId := 1, status := "running", startedAt := 6,
    completedAt := none, logs := ["Execution started for workflow: Demo"] }

/-- The default admin user seeded at startup. -/
def admin0 : User :=
  { id := 0, email := "admin@autoflow.com", name := "AutoFlow Admin",
    password := bcryptHash "admin123", role := "admin", createdAt := 0 }

/-- A registration body reusing the default admin's email. -/
def dupReq : RegisterReq :=
  { email := some "admin@autoflow.com", password := some "pw2", name := some "Eve" }

/-- A token signed with the wrong secret: `jwt.verify` rejects it. -/
def badToken : Token := { payload := u0, secret := "wrong-secret" }

/-- A concrete protected-route handler (the `GET /api/integrations` body). -/
def handler0 : Payload → ServerState → List Integration × ServerState :=
  fun p s => (getIntegrations s p, s)

/-- The first built-in template. -/
def tmpl0 : Template :=
  { id := "email-automation-1", name := "Email Marketing Automation",
    description := "Automated email sequences for lead nurturing",
    category := "Marketing", triggers := ["webhook", "schedule"],
    actions := ["email", "crm_update"], price := 99 }

/-! ## Theorems -/

/-- C2: for every state of the workflow store and every authenticated user,
`GET /api/workflows` contains exactly the stored workflows whose `userId`
equals the requester's `userId`; in particular a workflow whose `userId`
differs — one created by another user — never appears in the response. -/
theorem getWorkflows_exactly_own (s : ServerState) (u : Payload) (w : Workflow) :
    w ∈ getWorkflows s u ↔ w ∈ s.workflows ∧ w.userId = u.userId := by
  simp [getWorkflows, List.mem_filter]

/-- C9: `POST /api/workflows` performs no input validation: every
authenticated request — the empty body included — yields 201 and appends a
workflow with status `active`, name/description/trigger copied verbatim
from the body and actions defaulting to `[]`; no 400 is possible. -/
theorem createWorkflow_no_validation (s : ServerState) (u : Payload)
    (req : WorkflowReq) (now : Nat) :
    (createWorkflow s u req now).1.1 = 201 ∧
    (createWorkflow s u req now).1.2.name = req.name ∧
    (createWorkflow s u req now).1.2.description = req.description ∧
    (createWorkflow s u req now).1.2.trigger = req.trigger ∧
    (createWorkflow s u req now).1.2.actions = req.actions.getD [] ∧
    (createWorkflow s u req now).1.2.status = "active" ∧
    (createWorkflow s u req now).1.2.userId = u.userId ∧
    (createWorkflow s u req now).2.workflows
      = s.workflows ++ [(createWorkflow s u req now).1.2] :=
  ⟨rfl, rfl, rfl, rfl, rfl, rfl, rfl, rfl⟩

/-- C10: `GET /api/integrations` returns the whole integrations array to
every authenticated user, so an integration created by user A — its
`config` included — is visible to every other user B, unlike workflows,
which are filtered by the requester's `userId`. -/
theorem integrations_visible_to_all_users (s : ServerState) (uA uB : Payload)
    (req : IntegrationReq) (now : Nat) :
    getIntegrations s uB = s.integrations ∧
    (createIntegration s uA req now).1.2.config = req.config ∧
    (createIntegration s uA req now).1.2.userId = some uA.userId ∧
    (createIntegration s uA req now).1.2
      ∈ getIntegrations (createIntegration s uA req now).2 uB ∧
    (∀ w ∈ getWorkflows (createIntegration s uA req now).2 uB,
      w.userId = uB.userId) := by
  refine ⟨rfl, rfl, rfl, ?_, ?_⟩
  · simp [getIntegrations, createIntegration]
  · intro w hw
    simp [getWorkflows, List.mem_filter] at hw
    exact hw.2

/-- Witness for C10: in the state `s1`, an integration created by user `u9`
(config included) appears in user `u0`'s `GET /api/integrations`, while the
workflow listing only ever shows workflows owned by the requester. -/
theorem integrations_visible_to_all_users_witness :
    getIntegrations s1 u0 = s1.integrations ∧
    (createIntegration s1 u9 ireq0 7).1.2.config = ireq0.config ∧
    (createIntegration s1 u9 ireq0 7).1.2.userId = some u9.userId ∧
    (createIntegration s1 u9 ireq0 7).1.2
      ∈ getIntegrations (createIntegration s1 u9 ireq0 7).2 u0 ∧
    wf1.userId = u0.userId := by
  have h := integrations_visible_to_all_users s1 u9 u0 ireq0 7
  exact ⟨h.1, h.2.1, h.2.2.1, h.2.2.2.1, h.2.2.2.2 wf1 (by decide)⟩

/-- C4: on a protected route, a request without a bearer token gets 401 and
one whose token fails `jwt.verify` gets 403; in both cases the state is
returned untouched, so the handler body is never reached. -/
theorem protected_route_auth_errors {α : Type}
    (handler : Payload → ServerState → α × ServerState)
    (token : Option Token) (s : ServerState) :
    (token = none →
      protectedRoute handler token s = (.errRes 401 "Access token required", s)) ∧
    (∀ t, token = some t → jwtVerify t JWT_SECRET = none →
      protectedRoute handler token s = (.errRes 403 "Invalid token", s)) := by
  constructor
  · rintro rfl
    rfl
  · rintro t rfl hv
    simp [protectedRoute, authenticateToken, hv]

/-- Witness for C4: a request with no token gets 401, and one with a token
signed under the wrong secret gets 403, both leaving the state unchanged. -/
theorem protected_route_auth_errors_witness :
    protectedRoute handler0 none initState
      = (.errRes 401 "Access token required", initState) ∧
    protectedRoute handler0 (some badToken) initState
      = (.errRes 403 "Invalid token", initState) :=
  ⟨(protected_route_auth_errors handler0 none initState).1 rfl,
   (protected_route_auth_errors handler0 (some badToken) initState).2
     badToken rfl (by decide)⟩

/-- C7: when the template lookup succeeds,
`POST /api/templates/:templateId/deploy` appends to the workflow store a
workflow copying the template's name and description, with status `active`
and the requester's `userId`. -/
theorem deployTemplate_copies_template (s : ServerState) (u : Payload)
    (tid : String) (now : Nat) (t : Template)
    (ht : s.templates.find? (fun tp => tp.id == tid) = some t) :
    deployTemplate s u tid now
      = (.created (deployedWorkflow s u t now),
         { s with workflows := s.workflows ++ [deployedWorkflow s u t now],
                  nextId := s.nextId + 1 }) ∧
    (deployedWorkflow s u t now).name = some t.name ∧
    (deployedWorkflow s u t now).description = some t.description ∧
    (deployedWorkflow s u t now).status = "active" ∧
    (deployedWorkflow s u t now).userId = u.userId := by
  exact ⟨by simp only [deployTemplate, ht], rfl, rfl, rfl, rfl⟩

/-- Witness for C7: deploying the built-in email-automation template from
the initial state appends the copied workflow. -/
theorem deployTemplate_copies_template_witness :
    deployTemplate initState u0 "email-automation-1" 4
      = (.created (deployedWorkflow initState u0 tmpl0 4),
         { initState with
             workflows := initState.workflows ++ [deployedWorkflow initState u0 tmpl0 4],
             nextId := initState.nextId + 1 }) ∧
    (deployedWorkflow initState u0 tmpl0 4).name = some tmpl0.name ∧
    (deployedWorkflow initState u0 tmpl0 4).description = some tmpl0.description ∧
    (deployedWorkflow initState u0 tmpl0 4).status = "active" ∧
    (deployedWorkflow initState u0 tmpl0 4).userId = u0.userId :=
  deployTemplate_copies_template initState u0 "email-automation-1" 4 tmpl0 rfl

/-- C8: when no workflow with the given id owned by the requester exists,
`POST /api/executions/:workflowId` responds 404 and returns the state
unchanged: no execution record is pushed and no timer is armed. -/
theorem createExecution_unknown_workflow_404 (s : ServerState) (u : Payload)
    (wid now : Nat)
    (h : s.workflows.find? (fun w => w.id == wid && w.userId == u.userId) = none) :
    createExecution s u wid now = (.notFound "Workflow not found", s) := by
  simp only [createExecution, h]

/-- Witness for C8: starting an execution of the nonexistent workflow 99
from the initial state yields 404 and leaves the state unchanged. -/
theorem createExecution_unknown_workflow_404_witness :
    createExecution initState u0 99 1 = (.notFound "Workflow not found", initState) :=
  createExecution_unknown_workflow_404 initState u0 99 1 rfl

/-- C5: when a user with the request's email already exists, registration
responds 400 and the state is unchanged; and every registration — in any
state, with any body — preserves distinctness of stored emails. -/
theorem register_duplicate_email_rejected (s : ServerState) (req : RegisterReq)
    (now : Nat) (u : User) (hu : u ∈ s.users) (he : req.email = some u.email) :
    (register s req now).1.status = 400 ∧ (register s req now).2 = s ∧
    ∀ (s2 : ServerState) (req2 : RegisterReq) (now2 : Nat),
      (s2.users.map User.email).Nodup →
      ((register s2 req2 now2).2.users.map User.email).Nodup := by
  have hAB : (register s req now).1.status = 400 ∧ (register s req now).2 = s := by
    unfold register
    split
    · exact ⟨rfl, rfl⟩
    · dsimp only
      have hany : (s.users.any fun v => v.email == req.email.getD "") = true :=
        List.any_eq_true.2 ⟨u, hu, by rw [he]; exact beq_self_eq_true u.email⟩
      rw [if_pos hany]
      exact ⟨rfl, rfl⟩
  refine ⟨hAB.1, hAB.2, ?_⟩
  intro s2 req2 now2 hnd
  unfold register
  split
  · exact hnd
  · dsimp only
    split
    · exact hnd
    · rename_i hany
      simp only [List.map_append, List.map_cons, List.map_nil]
      rw [List.nodup_append]
      refine ⟨hnd, List.nodup_singleton _, ?_⟩
      intro a ha hb
      simp only [List.mem_singleton] at hb
      obtain ⟨v, hv, hveq⟩ := List.mem_map.1 ha
      exact hany (List.any_eq_true.2 ⟨v, hv, by rw [hveq, hb]; exact beq_self_eq_true _⟩)

/-- Witness for C5: re-registering the default admin's email yields 400 and
an unchanged state, and a fresh registration keeps stored emails distinct. -/
theorem register_duplicate_email_rejected_witness :
    (register initState dupReq 9).1.status = 400 ∧
    (register initState dupReq 9).2 = initState ∧
    ((register initState reqC1 1).2.users.map User.email).Nodup := by
  have h := register_duplicate_email_rejected initState dupReq 9 admin0
    (by decide) rfl
  exact ⟨h.1, h.2.1, h.2.2 initState reqC1 1 (by decide)⟩

/-- C6: `POST /api/auth/login` (with both fields supplied) responds 401
`Invalid credentials` when the email is unknown or the password fails the
bcrypt comparison, and on matching credentials returns a token signed with
the server secret that the `authenticateToken` middleware accepts. -/
theorem login_credentials_check (s : ServerState) (email password : String)
    (he : email ≠ "") (hp : password ≠ "") :
    (s.users.find? (fun v => v.email == email) = none →
      login s ⟨some email, some password⟩ = .unauthorized "Invalid credentials") ∧
    (∀ u, s.users.find? (fun v => v.email == email) = some u →
      bcryptCompare password u.password = false →
      login s ⟨some email, some password⟩ = .unauthorized "Invalid credentials") ∧
    (∀ u, s.users.find? (fun v => v.email == email) = some u →
      bcryptCompare password u.password = true →
      login s ⟨some email, some password⟩
        = .ok (jwtSign ⟨u.id, u.email, u.role⟩ JWT_SECRET) u ∧
      authenticateToken (some (jwtSign ⟨u.id, u.email, u.role⟩ JWT_SECRET))
        = .ok ⟨u.id, u.email, u.role⟩) := by
  refine ⟨?_, ?_, ?_⟩
  · intro hfind
    simp [login, truthy, he, hp, hfind]
  · intro u hfind hcmp
    simp [login, truthy, he, hp, hfind, hcmp]
  · intro u hfind hcmp
    refine ⟨?_, ?_⟩
    · simp [login, truthy, he, hp, hfind, hcmp]
    · simp [authenticateToken, jwtVerify, jwtSign]

/-- Witness for C6: against the initial state, login with an unknown email
or a wrong password for the admin yields 401, and login with the admin's
real credentials yields a token the middleware accepts. -/
theorem login_credentials_check_witness :
    login initState ⟨some "ghost@x.y", some "pw"⟩
      = .unauthorized "Invalid credentials" ∧
    login initState ⟨some "admin@autoflow.com", some "wrong"⟩
      = .unauthorized "Invalid credentials" ∧
    login initState ⟨some "admin@autoflow.com", some "admin123"⟩
      = .ok (jwtSign ⟨admin0.id, admin0.email, admin0.role⟩ JWT_SECRET) admin0 ∧
    authenticateToken (some (jwtSign ⟨admin0.id, admin0.email, admin0.role⟩ JWT_SECRET))
      = .ok ⟨admin0.id, admin0.email, admin0.role⟩ := by
  refine ⟨?_, ?_, ?_, ?_⟩
  · exact (login_credentials_check initState "ghost@x.y" "pw"
      (by decide) (by decide)).1 (by decide)
  · exact (login_credentials_check initState "admin@autoflow.com" "wrong"
      (by decide) (by decide)).2.1 admin0 (by decide) (by decide)
  · exact ((login_credentials_check initState "admin@autoflow.com" "admin123"
      (by decide) (by decide)).2.2 admin0 (by decide) (by decide)).1
  · exact ((login_credentials_check initState "admin@autoflow.com" "admin123"
      (by decide) (by decide)).2.2 admin0 (by decide) (by decide)).2

/-! Helper lemmas: how each step touches the `users` and `executions`
arrays. -/

theorem register_executions (s : ServerState) (req : RegisterReq) (now : Nat) :
    (register s req now).2.executions = s.executions := by
  unfold register
  split
  · rfl
  · dsimp only
    split
    · rfl
    · rfl

theorem register_users_extends (s : ServerState) (req : RegisterReq) (now : Nat) :
    ∃ l, (register s req now).2.users = s.users ++ l := by
  unfold register
  split
  · exact ⟨[], (List.append_nil _).symm⟩
  · dsimp only
    split
    · exact ⟨[], (List.append_nil _).symm⟩
    · exact ⟨[_], rfl⟩

theorem deployTemplate_executions (s : ServerState) (u : Payload)
    (tid : String) (now : Nat) :
    (deployTemplate s u tid now).2.executions = s.executions := by
  unfold deployTemplate
  split <;> rfl

theorem deployTemplate_users (s : ServerState) (u : Payload)
    (tid : String) (now : Nat) :
    (deployTemplate s u tid now).2.users = s.users := by
  unfold deployTemplate
  split <;> rfl

theorem createExecution_users (s : ServerState) (u : Payload) (wid now : Nat) :
    (createExecution s u wid now).2.users = s.users := by
  unfold createExecution
  split <;> rfl

theorem createExecution_executions (s : ServerState) (u : Payload)
    (wid now : Nat) :
    (createExecution s u wid now).2.executions = s.executions ∨
    ∃ e, (createExecution s u wid now).2.executions = s.executions ++ [e] ∧
      e.status = "running" := by
  unfold createExecution
  split
  · exact Or.inl rfl
  · exact Or.inr ⟨_, rfl, rfl⟩

theorem fireTimer_mem_executions {s : ServerState} {i now k : Nat}
    {e : Execution} (h : e ∈ (fireTimer s i now k).executions) :
    e ∈ s.executions ∨ e.status = "completed" := by
  obtain ⟨a, ha, hae⟩ := List.mem_map.1 h
  by_cases hid : a.id = i
  · right
    rw [← hae]
    simp [hid, completeExecution]
  · left
    rw [← hae]
    simpa [hid] using ha

theorem step_users_ne_nil {s s' : ServerState} (h : Step s s')
    (hs : s.users ≠ []) : s'.users ≠ [] := by
  cases h with
  | doRegister req now =>
    obtain ⟨l, hl⟩ := register_users_extends s req now
    rw [hl]
    intro hc
    exact hs (List.append_eq_nil.1 hc).1
  | doCreateWorkflow u req now => exact hs
  | doCreateIntegration u req now => exact hs
  | doDeployTemplate u tid now =>
    rw [deployTemplate_users]
    exact hs
  | doCreateExecution u wid now =>
    rw [createExecution_users]
    exact hs
  | doFireTimer i now k hi => exact hs

theorem reachable_users_ne_nil (s : ServerState) (h : Reachable s) :
    s.users ≠ [] := by
  unfold Reachable at h
  induction h with
  | refl => decide
  | tail _ hstep ih => exact step_users_ne_nil hstep ih

theorem step_exec_status {s s' : ServerState} (h : Step s s')
    (hs : ∀ e ∈ s.executions, e.status = "running" ∨ e.status = "completed") :
    ∀ e ∈ s'.executions, e.status = "running" ∨ e.status = "completed" := by
  cases h with
  | doRegister req now =>
    rw [register_executions]
    exact hs
  | doCreateWorkflow u req now => exact hs
  | doCreateIntegration u req now => exact hs
  | doDeployTemplate u tid now =>
    rw [deployTemplate_executions]
    exact hs
  | doCreateExecution u wid now =>
    intro e he
    rcases createExecution_executions s u wid now with hE | ⟨e0, hE, hst⟩
    · rw [hE] at he
      exact hs e he
    · rw [hE] at he
      rcases List.mem_append.1 he with h1 | h1
      · exact hs e h1
      · simp only [List.mem_singleton] at h1
        subst h1
        exact Or.inl hst
  | doFireTimer i now k hi =>
    intro e he
    rcases fireTimer_mem_executions he with h1 | h1
    · exact hs e h1
    · exact Or.inr h1

/-- C1 is refuted by the code: the startup callback has already seeded the
default admin, so the very first successful `POST /api/auth/register` from
the server's initial state creates a user with role `user`, not `admin`. -/
theorem first_registration_not_admin :
    (register initState reqC1 1).1.createdRole = some "user" ∧
    some "user" ≠ some "admin" := by decide

/-- C1 (amended): the startup callback seeds a default admin, so in every
reachable state the user store is nonempty and every successful
registration — the first one included — creates a user with role `user`;
`admin` would require an empty user store, which never occurs. -/
theorem register_role_after_startup (s : ServerState) (h : Reachable s)
    (req : RegisterReq) (now : Nat) :
    (register s req now).1.createdRole = none ∨
    (register s req now).1.createdRole = some "user" := by
  have hs : s.users ≠ [] := reachable_users_ne_nil s h
  have hlen : s.users.length ≠ 0 := fun hc => hs (List.length_eq_zero.1 hc)
  unfold register
  split
  · exact Or.inl rfl
  · dsimp only
    split
    · exact Or.inl rfl
    · right
      simp [RegisterRes.createdRole, hlen]

/-- Witness for C1 (amended): registering a fresh email from the initial
state yields role `user`. -/
theorem register_role_after_startup_witness :
    (register initState reqC1 2).1.createdRole = none ∨
    (register initState reqC1 2).1.createdRole = some "user" :=
  register_role_after_startup initState Relation.ReflTransGen.refl reqC1 2

/-- C3: a successful `POST /api/executions/:workflowId` returns and stores
an execution with status `running` and arms its completion timer; when the
timer fires, that execution's status becomes `completed`; and in every
reachable server state, every stored execution's status is `running` or
`completed` — no other value occurs. -/
theorem execution_status_lifecycle :
    (∀ (s : ServerState) (u : Payload) (wid now : Nat) (e : Execution),
        (createExecution s u wid now).1 = .created e →
        e.status = "running" ∧
        e ∈ (createExecution s u wid now).2.executions ∧
        e.id ∈ (createExecution s u wid now).2.timers) ∧
    (∀ (s : ServerState) (i now k : Nat) (e : Execution),
        e ∈ (fireTimer s i now k).executions → e.id = i →
        e.status = "completed") ∧
    (∀ s : ServerState, Reachable s →
        ∀ e ∈ s.executions, e.status = "running" ∨ e.status = "completed") := by
  refine ⟨?_, ?_, ?_⟩
  · intro s u wid now e hres
    rcases hfind : s.workflows.find? (fun w => w.id == wid && w.userId == u.userId)
      with _ | w
    · simp only [createExecution, hfind] at hres
      exact absurd hres (by simp)
    · simp only [createExecution, hfind] at hres ⊢
      cases hres
      refine ⟨rfl, ?_, ?_⟩
      · simp
      · simp
  · intro s i now k e he hid
    obtain ⟨a, ha, hae⟩ := List.mem_map.1 he
    by_cases h : a.id = i
    · rw [← hae]
      simp [h, completeExecution]
    · exfalso
      rw [← hae, if_neg h] at hid
      exact h hid
  · intro s hs
    unfold Reachable at hs
    induction hs with
    | refl =>
      intro e he
      simp [initState, startup, emptyState] at he
    | tail _ hstep ih => exact step_exec_status hstep ih

/-- Witness for C3: the concrete execution started in state `s2` is
`running`, stored, and its timer armed; firing that timer marks it
`completed`; and the reachable-state invariant holds for it. -/
theorem execution_status_lifecycle_witness :
    (exec0.status = "running" ∧
     exec0 ∈ s2.executions ∧
     exec0.id ∈ s2.timers) ∧
    (completeExecution exec0 8 7).status = "completed" ∧
    (exec0.status = "running" ∨ exec0.status = "completed") := by
  refine ⟨?_, ?_, ?_⟩
  · exact execution_status_lifecycle.1 s1 u0 1 6 exec0 (by decide)
  · exact execution_status_lifecycle.2.1 s2 2 8 7 (completeExecution exec0 8 7)
      (by decide) (by decide)
  · refine execution_status_lifecycle.2.2 s2 ?_ exec0 (by decide)
    exact Relation.ReflTransGen.tail
      (Relation.ReflTransGen.tail Relation.ReflTransGen.refl
        (Step.doCreateWorkflow initState u0 wreq0 5))
      (Step.doCreateExecution s1 u0 1 6)

end AutoFlow
